import Mathlib

/-!
Shallow embedding of the driver `main.go` of go-ts-segmenter.

The driver parses command-line flags into a configuration, validates the
PID-mode / init-data combination, selects at most one uploader, constructs
the manifest generator, selects the input reader (stdin or TCP), and runs
the read loop that feeds the generator until end-of-stream or a read error.

Machine integers of the Go code (`flag.Int`) are modelled as `Int`; byte
slices as `List Nat`; fallible reads as a `ReadResult` carrying the bytes
returned together with the error value of the read (`nil`, `io.EOF`, other).
-/

namespace GoTsSegmenter

/-- `manifestgenerator.ChunkNoIni`. The numeric encoding of the init types is
documented by the `initType` flag help text in main.go:
"0- No ini data, 1- Init segment, 2- At the beginning of each chunk". -/
def ChunkNoIni : Int := 0

/-- `manifestgenerator.ChunkInitStart`, the default of the `initType` flag;
per the flag help text, the mode putting init data at the beginning of each
chunk is encoded as 2. -/
def ChunkInitStart : Int := 2

/-- `hls.LiveWindow`, the default of the `manifestType` flag; per the flag help
text "0- Vod, 1- Live event, 2- Live sliding window", it is encoded as 2. -/
def LiveWindow : Int := 2

/-- The flag-derived configuration of main.go (the package-level `flag.*`
variables, read once after `flag.Parse`). Field names follow the Go
variable names. -/
structure Config where
  verbose : Bool
  baseOutPath : String
  chunkBaseFilename : String
  chunkListFilename : String
  /-- the `maxChunks` flag is stored in the variable named `fileNumberLength` -/
  fileNumberLength : Int
  targetSegmentDurS : Float
  liveWindowSize : Int
  lhlsAdvancedChunks : Int
  manifestTypeInt : Int
  autoPID : Bool
  videoPID : Int
  audioPID : Int
  chunkInitType : Int
  mediaDestinationType : Int
  manifestDestinationType : Int
  httpScheme : String
  httpHost : String
  logPath : String
  httpMaxRetries : Int
  initialHTTPRetryDelay : Int
  httpsInsecure : Bool
  inputType : Int
  localPort : Int
  awsID : String
  awsSecret : String
  awsRegion : String
  s3Bucket : String
  s3UploadTimeOut : Int
  s3IsPublicRead : Bool

/-- The default value of every flag, from the `flag.Bool` / `flag.Int` /
`flag.String` / `flag.Float64` declarations of main.go. -/
def defaultConfig : Config :=
  { verbose := false
    baseOutPath := "./results"
    chunkBaseFilename := "chunk_"
    chunkListFilename := "chunklist.m3u8"
    fileNumberLength := 5
    targetSegmentDurS := 4.0
    liveWindowSize := 3
    lhlsAdvancedChunks := 0
    manifestTypeInt := LiveWindow
    autoPID := true
    videoPID := -1
    audioPID := -1
    chunkInitType := ChunkInitStart
    mediaDestinationType := 1
    manifestDestinationType := 1
    httpScheme := "http"
    httpHost := "localhost:9094"
    logPath := ""
    httpMaxRetries := 40
    initialHTTPRetryDelay := 5
    httpsInsecure := false
    inputType := 1
    localPort := 2002
    awsID := ""
    awsSecret := ""
    awsRegion := ""
    s3Bucket := ""
    s3UploadTimeOut := 10000
    s3IsPublicRead := false }

/-- The startup validation of main.go:
`if *autoPID == false && manifestgenerator.ChunkInitTypes(*chunkInitType) != manifestgenerator.ChunkNoIni
{ log.Error(...); os.Exit(1) }`.
Returns `some 1` when the process exits with code 1 at startup (before the
input reader is even constructed), `none` when execution continues. -/
def startupValidationExit (cfg : Config) : Option Int :=
  if cfg.autoPID == false && cfg.chunkInitType != ChunkNoIni then some 1 else none

/-- `isHTTPOut` of main.go. -/
def isHTTPOut (cfg : Config) : Bool :=
  if cfg.mediaDestinationType == 2 || cfg.mediaDestinationType == 3
      || cfg.manifestDestinationType == 2 then
    true
  else
    false

/-- `isS3Out` of main.go. -/
def isS3Out (cfg : Config) : Bool :=
  if cfg.mediaDestinationType == 4 || cfg.manifestDestinationType == 3 then
    true
  else
    false

/-- Arguments of `httpuploader.New` as called in main.go. -/
structure HTTPUploaderArgs where
  insecure : Bool
  scheme : String
  host : String
  maxRetries : Int
  initialRetryDelay : Int

/-- `s3uploader.AWSLocalCreds` as built in main.go (zero value, then filled
when both id and secret are nonempty). -/
structure AWSLocalCreds where
  valid : Bool
  awsId : String
  awsSecret : String

/-- Arguments of `s3uploader.New` as called in main.go. -/
structure S3UploaderArgs where
  bucket : String
  region : String
  uploadTimeoutMs : Int
  isPublicRead : Bool
  creds : AWSLocalCreds

/-- The two nilable uploader handles of main.go; `none` models a nil pointer. -/
structure Uploaders where
  httpUploader : Option HTTPUploaderArgs
  s3Uploader : Option S3UploaderArgs

/-- The credential struct built in main.go lines 85-90. -/
def awsCredsOf (cfg : Config) : AWSLocalCreds :=
  if cfg.awsID != "" && cfg.awsSecret != "" then
    { valid := true, awsId := cfg.awsID, awsSecret := cfg.awsSecret }
  else
    { valid := false, awsId := "", awsSecret := "" }

/-- Uploader construction of main.go lines 79-93: both handles start nil; the
`if isHTTPOut() { ... } else if isS3Out() { ... }` chain constructs at most
one of them, HTTP first. -/
def selectUploaders (cfg : Config) : Uploaders :=
  if isHTTPOut cfg then
    { httpUploader := some
        { insecure := cfg.httpsInsecure
          scheme := cfg.httpScheme
          host := cfg.httpHost
          maxRetries := cfg.httpMaxRetries
          initialRetryDelay := cfg.initialHTTPRetryDelay }
      s3Uploader := none }
  else if isS3Out cfg then
    { httpUploader := none
      s3Uploader := some
        { bucket := cfg.s3Bucket
          region := cfg.awsRegion
          uploadTimeoutMs := cfg.s3UploadTimeOut
          isPublicRead := cfg.s3IsPublicRead
          creds := awsCredsOf cfg } }
  else
    { httpUploader := none, s3Uploader := none }

/-- The argument list of the `manifestgenerator.New` call in main.go
lines 95-111, in source order (the logger aside). -/
structure MgArgs where
  chunkOutputType : Int
  hlsOutputType : Int
  basePath : String
  chunkBaseFilename : String
  chunkListFilename : String
  fileNumberLength : Int
  targetSegmentDurS : Float
  chunkInitType : Int
  autoPID : Bool
  videoPid : Int
  audioPid : Int
  manifestType : Int
  liveWindowSize : Int
  lhlsAdvancedChunks : Int
  httpUploader : Option HTTPUploaderArgs
  s3Uploader : Option S3UploaderArgs

/-- The `manifestgenerator.New(...)` call of main.go lines 95-111. The video
and audio PID arguments are the literals `-1, -1` in the source; the `vpid`
and `apid` flag values are not passed. -/
def mgArgs (cfg : Config) : MgArgs :=
  { chunkOutputType := cfg.mediaDestinationType
    hlsOutputType := cfg.manifestDestinationType
    basePath := cfg.baseOutPath
    chunkBaseFilename := cfg.chunkBaseFilename
    chunkListFilename := cfg.chunkListFilename
    fileNumberLength := cfg.fileNumberLength
    targetSegmentDurS := cfg.targetSegmentDurS
    chunkInitType := cfg.chunkInitType
    autoPID := cfg.autoPID
    videoPid := -1
    audioPid := -1
    manifestType := cfg.manifestTypeInt
    liveWindowSize := cfg.liveWindowSize
    lhlsAdvancedChunks := cfg.lhlsAdvancedChunks
    httpUploader := (selectUploaders cfg).httpUploader
    s3Uploader := (selectUploaders cfg).s3Uploader }

/-- The byte-acquisition mode selected in main.go lines 113-129. -/
inductive ReaderSource where
  | tcp (port : Int)
  | stdin
deriving DecidableEq

/-- Input reader selection of main.go: `if *inputType == 2` listen on the
local port and read from the accepted connection, otherwise read stdin. -/
def readerSource (cfg : Config) : ReaderSource :=
  if cfg.inputType == 2 then ReaderSource.tcp cfg.localPort else ReaderSource.stdin

/-- Outcome of the TCP input setup (main.go lines 115-125), whose two error
results are discarded with the blank identifier:
`ln, _ := net.Listen("tcp", ...)` followed by `conn, _ := ln.Accept()` and
`r = bufio.NewReader(conn)`. In Go, when `net.Listen` fails it returns a nil
`Listener` interface, and calling `Accept` on that nil interface is a nil
dereference: the runtime panics before any reader is built. When `Listen`
succeeds but `Accept` fails, `conn` is nil and the reader is built over a
nil connection. -/
inductive TCPSetupOutcome where
  /-- `ln` was nil; `ln.Accept()` panics with a nil dereference. -/
  | nilDeref
  /-- a `bufio.Reader` was built; the flag records whether `conn` was nil. -/
  | reader (connIsNil : Bool)
deriving DecidableEq

/-- The TCP setup of main.go lines 120-125, parameterised by the result of
`net.Listen` (`none` = error, listener nil) and of `ln.Accept` (`none` =
error, connection nil). Neither error value is inspected by the source. -/
def tcpSetup {L C : Type} (listenResult : Option L) (acceptResult : L → Option C) :
    TCPSetupOutcome :=
  match listenResult with
  | none => TCPSetupOutcome.nilDeref
  | some ln =>
    match acceptResult ln with
    | none => TCPSetupOutcome.reader true
    | some _ => TCPSetupOutcome.reader false

/-- The error value returned by `r.Read`: `nil`, `io.EOF`, or any other error. -/
inductive ReadErr where
  | ok
  | eof
  | fail
deriving DecidableEq

/-- One result of `r.Read(buf[:cap(buf)])`: the bytes read (`buf[:n]`, so
`n = bytes.length`) together with the error value. -/
structure ReadResult where
  bytes : List Nat
  err : ReadErr
deriving DecidableEq

/-- How a run of the read loop of main.go lines 134-158 ended. -/
inductive Termination where
  /-- the (finite) read trace was exhausted without the loop exiting -/
  | stillRunning
  /-- `n == 0 && err == io.EOF`: `mg.Close()`, `break`, then `os.Exit(0)` -/
  | cleanEOF
  /-- `err != nil && err != io.EOF`: `log.Fatal` / `os.Exit(1)` -/
  | fatalReadError
deriving DecidableEq

/-- Observable outcome of running the read loop over a trace of reads:
the final pipeline state, the byte slices passed to `mg.AddData` in order,
the number of `mg.Close()` calls, and how (whether) the loop ended. -/
structure RunResult (σ : Type) where
  state : σ
  forwarded : List (List Nat)
  mgCloseCalls : Nat
  termination : Termination
  exitCode : Option Int

/-- The read loop of main.go lines 134-158, run over a finite trace of read
results. The pipeline (`mg`) is abstracted to a state `s : σ` transformed by
`addData` (modelling `mg.AddData`, whatever it and its delivery dispatch do):
- `n == 0 && err == io.EOF`: `mg.Close()`, `break`, `os.Exit(0)`;
- `err != nil && err != io.EOF`: `log.Fatal(err)`, `os.Exit(1)` — no close;
- otherwise `mg.AddData(buf[:n])` and loop. -/
def runLoop {σ : Type} (addData : σ → List Nat → σ) : σ → List ReadResult → RunResult σ
  | s, [] =>
    { state := s, forwarded := [], mgCloseCalls := 0
      termination := Termination.stillRunning, exitCode := none }
  | s, r :: rest =>
    if r.bytes.length == 0 && r.err == ReadErr.eof then
      { state := s, forwarded := [], mgCloseCalls := 1
        termination := Termination.cleanEOF, exitCode := some 0 }
    else if r.err != ReadErr.ok && r.err != ReadErr.eof then
      { state := s, forwarded := [], mgCloseCalls := 0
        termination := Termination.fatalReadError, exitCode := some 1 }
    else
      let out := runLoop addData (addData s r.bytes) rest
      { out with forwarded := r.bytes :: out.forwarded }

/-- A read result on which the loop neither breaks for EOF nor exits for a
read error: it is forwarded to `mg.AddData` and the loop continues. -/
def keepsLooping (r : ReadResult) : Bool :=
  !(r.bytes.length == 0 && r.err == ReadErr.eof) && !(r.err == ReadErr.fail)

/-- A configuration in manual PID mode with the "no init data" chunk policy. -/
def cfgManualNoIni : Config :=
  { defaultConfig with autoPID := false, chunkInitType := ChunkNoIni }

/-- A configuration in manual PID mode with the init-segment chunk policy
(`initType = 1` per the flag help text). -/
def cfgManualInitSeg : Config :=
  { defaultConfig with autoPID := false, chunkInitType := 1 }

/-- A manual-PID configuration with operator-supplied PIDs (`-vpid 256
-apid 257`) and the "no init data" policy, so it passes startup validation. -/
def cfgManualPids : Config :=
  { defaultConfig with
      autoPID := false, chunkInitType := ChunkNoIni, videoPID := 256, audioPID := 257 }

/-- A configuration selecting both an HTTP media destination (2) and the S3
manifest destination (3). -/
def cfgHttpAndS3 : Config :=
  { defaultConfig with mediaDestinationType := 2, manifestDestinationType := 3 }

/-- A configuration selecting the TCP input kind. -/
def cfgTcpIn : Config :=
  { defaultConfig with inputType := 2 }

/-! ## Helper lemmas about the read loop -/

theorem keepsLooping_conds {r : ReadResult} (h : keepsLooping r = true) :
    (r.bytes.length == 0 && r.err == ReadErr.eof) = false ∧
    (r.err != ReadErr.ok && r.err != ReadErr.eof) = false := by
  unfold keepsLooping at h
  rw [Bool.and_eq_true, Bool.not_eq_true', Bool.not_eq_true'] at h
  refine ⟨h.1, ?_⟩
  have hf : r.err ≠ ReadErr.fail := by
    intro he
    rw [he] at h
    exact absurd h.2 (by decide)
  cases he : r.err
  · rfl
  · simp
  · exact absurd he hf

/-- Unfolding the loop at a read it forwards. -/
theorem runLoop_cons_keeps {σ : Type} (f : σ → List Nat → σ) (s : σ) (r : ReadResult)
    (rest : List ReadResult) (h : keepsLooping r = true) :
    runLoop f s (r :: rest) =
      { runLoop f (f s r.bytes) rest with
          forwarded := r.bytes :: (runLoop f (f s r.bytes) rest).forwarded } := by
  obtain ⟨h1, h2⟩ := keepsLooping_conds h
  simp only [runLoop, h1, h2, Bool.false_eq_true, if_false]

/-- Running the loop over a clean prefix followed by a zero-byte EOF read:
the prefix is forwarded in order, `mg.Close()` runs once, exit code 0. -/
theorem runLoop_eof {σ : Type} (f : σ → List Nat → σ) (s : σ) (pre rest : List ReadResult)
    (h : pre.all keepsLooping = true) :
    runLoop f s (pre ++ { bytes := [], err := ReadErr.eof } :: rest) =
      { state := pre.foldl (fun t r => f t r.bytes) s
        forwarded := pre.map (fun r => r.bytes)
        mgCloseCalls := 1
        termination := Termination.cleanEOF
        exitCode := some 0 } := by
  induction pre generalizing s with
  | nil => simp [runLoop]
  | cons r pre ih =>
    rw [List.all_cons, Bool.and_eq_true] at h
    rw [List.cons_append, runLoop_cons_keeps f s r _ h.1, ih (f s r.bytes) h.2]
    rfl

/-- Running the loop over a clean prefix followed by a failing read: the
prefix is forwarded, then the process exits 1 with no `mg.Close()` call. -/
theorem runLoop_fatal {σ : Type} (f : σ → List Nat → σ) (s : σ) (pre : List ReadResult)
    (r : ReadResult) (rest : List ReadResult)
    (hpre : pre.all keepsLooping = true) (hr : r.err = ReadErr.fail) :
    runLoop f s (pre ++ r :: rest) =
      { state := pre.foldl (fun t q => f t q.bytes) s
        forwarded := pre.map (fun q => q.bytes)
        mgCloseCalls := 0
        termination := Termination.fatalReadError
        exitCode := some 1 } := by
  induction pre generalizing s with
  | nil =>
    have h1 : (r.bytes.length == 0 && r.err == ReadErr.eof) = false := by
      rw [hr]
      simp
    have h2 : (r.err != ReadErr.ok && r.err != ReadErr.eof) = true := by
      rw [hr]
      rfl
    simp only [List.nil_append, runLoop, h1, h2, Bool.false_eq_true, if_false, if_true]
    rfl
  | cons q pre ih =>
    rw [List.all_cons, Bool.and_eq_true] at hpre
    rw [List.cons_append, runLoop_cons_keeps f s q _ hpre.1, ih (f s q.bytes) hpre.2]
    rfl

/-- The loop's control flow (how it terminates, its exit code, the number of
close calls, and what it forwards) depends only on the read trace, never on
the pipeline state or on what `mg.AddData` does with the data. -/
theorem runLoop_control_indep {σ τ : Type} (f : σ → List Nat → σ) (g : τ → List Nat → τ)
    (s : σ) (t : τ) (trace : List ReadResult) :
    (runLoop f s trace).termination = (runLoop g t trace).termination ∧
    (runLoop f s trace).exitCode = (runLoop g t trace).exitCode ∧
    (runLoop f s trace).mgCloseCalls = (runLoop g t trace).mgCloseCalls ∧
    (runLoop f s trace).forwarded = (runLoop g t trace).forwarded := by
  induction trace generalizing s t with
  | nil => exact ⟨rfl, rfl, rfl, rfl⟩
  | cons r rest ih =>
    by_cases h1 : (r.bytes.length == 0 && r.err == ReadErr.eof) = true
    · simp only [runLoop, h1, if_true]
      exact ⟨trivial, trivial, trivial, trivial⟩
    · rw [Bool.not_eq_true] at h1
      by_cases h2 : (r.err != ReadErr.ok && r.err != ReadErr.eof) = true
      · simp only [runLoop, h1, h2, Bool.false_eq_true, if_false, if_true]
        exact ⟨trivial, trivial, trivial, trivial⟩
      · rw [Bool.not_eq_true] at h2
        simp only [runLoop, h1, h2, Bool.false_eq_true, if_false]
        obtain ⟨i1, i2, i3, i4⟩ := ih (f s r.bytes) (g t r.bytes)
        exact ⟨i1, i2, i3, by rw [i4]⟩

/-- If no read in the trace signals EOF with zero bytes or a read error, the
loop never exits: it consumes the whole trace and keeps running. -/
theorem runLoop_all_keeps {σ : Type} (f : σ → List Nat → σ) (s : σ)
    (trace : List ReadResult) (h : trace.all keepsLooping = true) :
    (runLoop f s trace).termination = Termination.stillRunning := by
  induction trace generalizing s with
  | nil => rfl
  | cons r rest ih =>
    rw [List.all_cons, Bool.and_eq_true] at h
    rw [runLoop_cons_keeps f s r rest h.1]
    exact ih (f s r.bytes) h.2

/-! ## Claim theorems -/

/-- Claim C1 counterexample: the configuration combining manual PID mode with
the "no init data" chunk policy passes startup validation (the claim says it
exits non-zero), while manual PID mode with the init-segment policy is
rejected with exit code 1 (the claim says every other combination passes). -/
theorem manual_noini_passes_validation :
    cfgManualNoIni.autoPID = false ∧ cfgManualNoIni.chunkInitType = ChunkNoIni ∧
    startupValidationExit cfgManualNoIni = none ∧
    cfgManualInitSeg.autoPID = false ∧ cfgManualInitSeg.chunkInitType ≠ ChunkNoIni ∧
    startupValidationExit cfgManualInitSeg = some 1 :=
  ⟨rfl, rfl, rfl, rfl, by decide, rfl⟩

/-- Claim C1 (amended): startup validation exits with code 1, before any
input is read, exactly for the configurations with manual PID mode and an
init-data mode other than "no init data"; manual PID mode with "no init
data", and every automatic-PID configuration, pass validation. -/
theorem startup_validation_iff (cfg : Config) :
    startupValidationExit cfg = some 1 ↔
      (cfg.autoPID = false ∧ cfg.chunkInitType ≠ ChunkNoIni) := by
  unfold startupValidationExit
  by_cases ha : cfg.autoPID = false
  · by_cases hc : cfg.chunkInitType = ChunkNoIni
    · simp [ha, hc]
    · simp [ha, hc]
  · simp [ha]

/-- Claim C2 (code bug): main.go declares the `vpid` and `apid` flags (with
help text saying they are the PIDs to parse when auto detection is off) but
the `manifestgenerator.New` call passes the literals `-1, -1` instead; a
manual-PID configuration with `-vpid 256 -apid 257` that passes startup
validation still hands PIDs `-1, -1` to the pipeline. -/
theorem manual_pids_not_passed :
    startupValidationExit cfgManualPids = none ∧
    cfgManualPids.autoPID = false ∧
    cfgManualPids.videoPID = 256 ∧ cfgManualPids.audioPID = 257 ∧
    (mgArgs cfgManualPids).videoPid = -1 ∧ (mgArgs cfgManualPids).audioPid = -1 :=
  ⟨rfl, rfl, rfl, rfl, rfl, rfl⟩

/-- Claim C3 counterexample: on a trace whose only read returns a non-EOF
error, the process exits with code 1 without a single `mg.Close()` call —
no chunk flush and no final manifest render precede the exit. -/
theorem read_error_no_close :
    (runLoop (fun (n : Nat) _ => n + 1) 0
        [{ bytes := [], err := ReadErr.fail }]).mgCloseCalls = 0 ∧
    (runLoop (fun (n : Nat) _ => n + 1) 0
        [{ bytes := [], err := ReadErr.fail }]).exitCode = some 1 :=
  ⟨rfl, rfl⟩

/-- Claim C3 (amended): for every run in which a read of the input source
returns an error other than end-of-stream, the process exits with code 1
immediately; the pipeline's close (chunk flush and final manifest render)
is never invoked before that exit. -/
theorem read_error_exits_without_close {σ : Type} (f : σ → List Nat → σ) (s : σ)
    (pre : List ReadResult) (r : ReadResult) (rest : List ReadResult)
    (hpre : pre.all keepsLooping = true) (hr : r.err = ReadErr.fail) :
    (runLoop f s (pre ++ r :: rest)).mgCloseCalls = 0 ∧
    (runLoop f s (pre ++ r :: rest)).exitCode = some 1 ∧
    (runLoop f s (pre ++ r :: rest)).termination = Termination.fatalReadError := by
  rw [runLoop_fatal f s pre r rest hpre hr]
  exact ⟨rfl, rfl, rfl⟩

/-- Witness for `read_error_exits_without_close` at a concrete trace. -/
theorem read_error_exits_without_close_witness :
    ([{ bytes := [5], err := ReadErr.ok }] : List ReadResult).all keepsLooping = true ∧
    (runLoop (fun (n : Nat) _ => n + 1) 0
        ([{ bytes := [5], err := ReadErr.ok }] ++
          { bytes := [9], err := ReadErr.fail } :: [])).mgCloseCalls = 0 :=
  ⟨by decide,
    (read_error_exits_without_close (fun n _ => n + 1) 0 [{ bytes := [5], err := ReadErr.ok }]
      { bytes := [9], err := ReadErr.fail } [] (by decide) rfl).1⟩

/-- Claim C4: for every run whose input reaches end-of-stream (a read
returning zero bytes together with `io.EOF`), `mg.Close()` is invoked
exactly once and the process then exits with code 0. -/
theorem eof_closes_once_and_exits_zero {σ : Type} (f : σ → List Nat → σ) (s : σ)
    (pre rest : List ReadResult) (h : pre.all keepsLooping = true) :
    (runLoop f s (pre ++ { bytes := [], err := ReadErr.eof } :: rest)).mgCloseCalls = 1 ∧
    (runLoop f s (pre ++ { bytes := [], err := ReadErr.eof } :: rest)).exitCode = some 0 := by
  rw [runLoop_eof f s pre rest h]
  exact ⟨rfl, rfl⟩

/-- Witness for `eof_closes_once_and_exits_zero` at a concrete trace. -/
theorem eof_closes_once_and_exits_zero_witness :
    ([{ bytes := [1], err := ReadErr.ok }] : List ReadResult).all keepsLooping = true ∧
    (runLoop (fun (n : Nat) _ => n + 1) 0
        ([{ bytes := [1], err := ReadErr.ok }] ++
          { bytes := [], err := ReadErr.eof } :: [])).mgCloseCalls = 1 ∧
    (runLoop (fun (n : Nat) _ => n + 1) 0
        ([{ bytes := [1], err := ReadErr.ok }] ++
          { bytes := [], err := ReadErr.eof } :: [])).exitCode = some 0 :=
  ⟨by decide,
    (eof_closes_once_and_exits_zero (fun n _ => n + 1) 0
      [{ bytes := [1], err := ReadErr.ok }] [] (by decide)).1,
    (eof_closes_once_and_exits_zero (fun n _ => n + 1) 0
      [{ bytes := [1], err := ReadErr.ok }] [] (by decide)).2⟩

/-- Claim C5: delivery outcomes never stop the ingest loop. The loop's
control flow is identical under any two pipeline behaviours (so sink
failures absorbed inside `mg.AddData` cannot change it); a trace with no
zero-byte-EOF read and no read error never makes the loop exit; and a run
whose input reaches end-of-stream exits with code 0 regardless of the
pipeline behaviour. -/
theorem delivery_outcomes_never_stop_loop {σ τ : Type} (f : σ → List Nat → σ)
    (g : τ → List Nat → τ) (s : σ) (t : τ) (trace : List ReadResult) :
    ((runLoop f s trace).termination = (runLoop g t trace).termination ∧
      (runLoop f s trace).exitCode = (runLoop g t trace).exitCode) ∧
    (trace.all keepsLooping = true →
      (runLoop f s trace).termination = Termination.stillRunning) ∧
    (∀ pre rest, trace = pre ++ { bytes := [], err := ReadErr.eof } :: rest →
      pre.all keepsLooping = true → (runLoop f s trace).exitCode = some 0) := by
  refine ⟨⟨(runLoop_control_indep f g s t trace).1,
    (runLoop_control_indep f g s t trace).2.1⟩, runLoop_all_keeps f s trace, ?_⟩
  intro pre rest htr hpre
  rw [htr, runLoop_eof f s pre rest hpre]

/-- Witness for `delivery_outcomes_never_stop_loop`: under a pipeline
behaviour that records a failure on every chunk, an EOF-terminated trace
still exits 0. -/
theorem delivery_outcomes_never_stop_loop_witness :
    ([{ bytes := [1], err := ReadErr.ok }] : List ReadResult).all keepsLooping = true ∧
    (runLoop (fun (n : Nat) _ => n + 1) 0
        [{ bytes := [1], err := ReadErr.ok },
          { bytes := [], err := ReadErr.eof }]).exitCode = some 0 :=
  ⟨by decide,
    (delivery_outcomes_never_stop_loop (fun (n : Nat) _ => n + 1) (fun (n : Nat) _ => n) 0 0
        [{ bytes := [1], err := ReadErr.ok }, { bytes := [], err := ReadErr.eof }]).2.2
      [{ bytes := [1], err := ReadErr.ok }] [] rfl (by decide)⟩

/-- Claim C6 counterexample: under the default configuration the generator
receives 5 in the `fileNumberLength` (maxChunks) argument position and 3 in
the `liveWindowSize` position; the two options reach the pipeline as two
different values, so no single live-window capacity W can equal the value
of either option. -/
theorem maxchunks_livewindow_differ :
    (mgArgs defaultConfig).fileNumberLength = 5 ∧
    (mgArgs defaultConfig).liveWindowSize = 3 ∧
    (mgArgs defaultConfig).fileNumberLength ≠ (mgArgs defaultConfig).liveWindowSize :=
  ⟨rfl, rfl, by decide⟩

/-- Claim C6 (amended): the `maxChunks` option (held in the variable named
`fileNumberLength`) and the `liveWindowSize` option are independent: each is
passed to the manifest generator as its own construction parameter carrying
its own flag's value. -/
theorem options_flow_to_distinct_params (cfg : Config) :
    (mgArgs cfg).fileNumberLength = cfg.fileNumberLength ∧
    (mgArgs cfg).liveWindowSize = cfg.liveWindowSize :=
  ⟨rfl, rfl⟩

/-- Claim C7: when the TCP input kind (2) is selected, bytes are acquired
from a listener on the configured local port; for every other input kind
they are acquired from standard input. -/
theorem input_kind_selects_acquisition (cfg : Config) :
    (cfg.inputType = 2 → readerSource cfg = ReaderSource.tcp cfg.localPort) ∧
    (cfg.inputType ≠ 2 → readerSource cfg = ReaderSource.stdin) := by
  constructor
  · intro h
    unfold readerSource
    rw [if_pos (by simp [h])]
  · intro h
    unfold readerSource
    rw [if_neg (by simp [h])]

/-- Witness for `input_kind_selects_acquisition` at the TCP and the default
(stdin) configurations. -/
theorem input_kind_selects_acquisition_witness :
    readerSource cfgTcpIn = ReaderSource.tcp 2002 ∧
    readerSource defaultConfig = ReaderSource.stdin :=
  ⟨(input_kind_selects_acquisition cfgTcpIn).1 rfl,
    (input_kind_selects_acquisition defaultConfig).2 (by decide)⟩

/-- Claim C8: at most one uploader is constructed and HTTP takes precedence:
whenever some destination selects an HTTP kind, the S3 uploader handle
passed to the generator is nil, even if the other destination selects the
object-storage kind. -/
theorem http_precedes_s3 (cfg : Config) :
    ¬((mgArgs cfg).httpUploader.isSome = true ∧ (mgArgs cfg).s3Uploader.isSome = true) ∧
    (isHTTPOut cfg = true → (mgArgs cfg).s3Uploader = none) := by
  unfold mgArgs selectUploaders
  by_cases h1 : isHTTPOut cfg = true
  · simp [h1]
  · by_cases h2 : isS3Out cfg = true
    · simp [h1, h2]
    · simp [h1, h2]

/-- Witness for `http_precedes_s3`: with an HTTP media destination (2) and
the S3 manifest destination (3), the S3 handle is nil. -/
theorem http_precedes_s3_witness :
    isHTTPOut cfgHttpAndS3 = true ∧ isS3Out cfgHttpAndS3 = true ∧
    (mgArgs cfgHttpAndS3).s3Uploader = none :=
  ⟨rfl, rfl, (http_precedes_s3 cfgHttpAndS3).2 rfl⟩

/-- Claim C9 counterexample: a read returning 3 bytes together with a
non-EOF error has its bytes dropped — nothing is forwarded to the pipeline
before the process exits with code 1, so a byte slice of length n > 0
returned by a read is not always forwarded. -/
theorem error_read_bytes_dropped :
    (runLoop (fun (l : List (List Nat)) b => l ++ [b]) []
        [{ bytes := [1, 2, 3], err := ReadErr.fail }]).forwarded = [] ∧
    (runLoop (fun (l : List (List Nat)) b => l ++ [b]) []
        [{ bytes := [1, 2, 3], err := ReadErr.fail }]).exitCode = some 1 :=
  ⟨rfl, rfl⟩

/-- Claim C9 (amended): in every run that terminates at end-of-stream, each
byte slice returned by a read — including a nonempty slice returned together
with the end-of-stream indication — is forwarded to `mg.AddData` exactly once
and in arrival order, and shutdown is the clean-EOF one triggered by a
zero-byte EOF read; bytes returned together with a non-EOF read error,
however, are dropped as the process exits non-zero. -/
theorem clean_reads_forwarded_in_order {σ : Type} (f : σ → List Nat → σ) (s : σ)
    (pre rest : List ReadResult) (h : pre.all keepsLooping = true) :
    (runLoop f s (pre ++ { bytes := [], err := ReadErr.eof } :: rest)).forwarded =
      pre.map (fun r => r.bytes) ∧
    (runLoop f s (pre ++ { bytes := [], err := ReadErr.eof } :: rest)).termination =
      Termination.cleanEOF := by
  rw [runLoop_eof f s pre rest h]
  exact ⟨rfl, rfl⟩

/-- Witness for `clean_reads_forwarded_in_order`: a trace whose second read
returns one byte together with `io.EOF`; both slices are forwarded in order. -/
theorem clean_reads_forwarded_in_order_witness :
    ([{ bytes := [1, 2], err := ReadErr.ok }, { bytes := [7], err := ReadErr.eof }] :
        List ReadResult).all keepsLooping = true ∧
    (runLoop (fun (l : List (List Nat)) b => l ++ [b]) []
        ([{ bytes := [1, 2], err := ReadErr.ok }, { bytes := [7], err := ReadErr.eof }] ++
          { bytes := [], err := ReadErr.eof } :: [])).forwarded = [[1, 2], [7]] :=
  ⟨by decide,
    (clean_reads_forwarded_in_order (fun l b => l ++ [b]) []
      [{ bytes := [1, 2], err := ReadErr.ok }, { bytes := [7], err := ReadErr.eof }] []
      (by decide)).1⟩

/-- Claim C10 counterexample: when `net.Listen` fails, the setup does not
build a reader over a nil connection — calling `Accept` on the nil listener
interface dereferences nil and the runtime panics before any reader exists. -/
theorem listen_failure_nil_deref :
    tcpSetup (L := Unit) (C := Unit) none (fun _ => none) ≠ TCPSetupOutcome.reader true ∧
    tcpSetup (L := Unit) (C := Unit) none (fun _ => none) ≠ TCPSetupOutcome.reader false ∧
    tcpSetup (L := Unit) (C := Unit) none (fun _ => none) = TCPSetupOutcome.nilDeref :=
  ⟨by decide, by decide, rfl⟩

/-- Claim C10 (amended): the errors of `net.Listen` and `ln.Accept` are
discarded unchecked; a listen failure crashes with a nil dereference at the
`Accept` call, before any reader is built and without being routed through
the read-loop's non-zero-exit error path, while an accept failure after a
successful listen yields a reader built over a nil connection. -/
theorem tcp_errors_unchecked {L C : Type} (accept : L → Option C) :
    tcpSetup (L := L) (C := C) none accept = TCPSetupOutcome.nilDeref ∧
    (∀ ln : L, accept ln = none →
      tcpSetup (some ln) accept = TCPSetupOutcome.reader true) := by
  refine ⟨rfl, ?_⟩
  intro ln h
  simp [tcpSetup, h]

/-- Witness for `tcp_errors_unchecked` with a concrete always-failing accept. -/
theorem tcp_errors_unchecked_witness :
    (fun _ : Unit => (none : Option Unit)) () = none ∧
    tcpSetup (some ()) (fun _ : Unit => (none : Option Unit)) = TCPSetupOutcome.reader true :=
  ⟨rfl, (tcp_errors_unchecked (fun _ : Unit => (none : Option Unit))).2 () rfl⟩

end GoTsSegmenter
